import Mathlib

/-!
Shallow embedding of the insight-pipeline core of the nvidia-earnings-analyzer
repository, covering the Trend Analyzer (src/app/lib/trend-analyzer.ts), the
Synthetic Generator part of the Acquisition Orchestrator
(src/app/lib/transcript-collector.ts) and the Signal Extractor
(src/app/lib/analysis-engine.ts), together with theorems settling the frozen
claims about this code.

Modelling conventions: JavaScript numbers are modelled as rationals; strings as
Lean strings; a function that can throw is modelled with Except; the in-place
Array.prototype.sort is modelled by returning the sorted list, with a separate
definition for the contents of the caller array after the call.
-/

namespace NvidiaEarnings

/-- Sentiment record produced by the analysis service
(interface SentimentAnalysis in src/app/types/index.ts). -/
structure SentimentAnalysis where
  sentiment : String
  score : ℚ
  confidence : ℚ
  keyPhrases : List String
  reasoning : String
deriving DecidableEq, Repr

/-- One strategic theme (interface StrategicFocus in src/app/types/index.ts). -/
structure StrategicFocus where
  theme : String
  mentions : ℚ
  importance : ℚ
  quotes : List String
  category : String
deriving DecidableEq, Repr

/-- Per-quarter record of extracted signals
(interface QuarterlyInsights in src/app/types/index.ts; the optional keyMetrics
strings play no role in the trend claims and are kept as optional fields). -/
structure QuarterlyInsights where
  transcriptId : String
  quarter : String
  managementSentiment : SentimentAnalysis
  qaSentiment : SentimentAnalysis
  strategicFocuses : List StrategicFocus
  revenue : Option String := none
  guidance : Option String := none
  generatedAt : String := ""
deriving DecidableEq, Repr

/-- One point of the per-quarter sentiment series in a TrendAnalysis. -/
structure SentimentPoint where
  quarter : String
  score : ℚ
  sentiment : String
deriving DecidableEq, Repr

/-- Significance tier of a quarter-over-quarter change
(return type of getChangeSignificance). -/
inductive Significance where
  | major
  | moderate
  | minor
deriving DecidableEq, Repr

/-- Management-or-QA half of one quarter-over-quarter change record. -/
structure ChangeDetail where
  scoreDelta : ℚ
  sentimentShift : String
  significance : Significance
deriving DecidableEq, Repr

/-- One quarter-over-quarter change record. -/
structure QuarterChange where
  quarter : String
  managementChange : ChangeDetail
  qaChange : ChangeDetail
deriving DecidableEq, Repr

/-- One per-quarter theme-evolution record. -/
structure EvolutionEntry where
  quarter : String
  emergingThemes : List String
  decliningThemes : List String
  consistentThemes : List String
deriving DecidableEq, Repr

/-- The two sentiment series of a TrendAnalysis. -/
structure SentimentTrend where
  management : List SentimentPoint
  qa : List SentimentPoint
deriving DecidableEq, Repr

/-- Overall trend direction (the improving/declining/stable union type). -/
inductive Trend where
  | improving
  | declining
  | stable
deriving DecidableEq, Repr

/-- Overall summary block of a TrendAnalysis. -/
structure OverallTrendSummary where
  managementTrend : Trend
  qaTrend : Trend
  strategicShift : String
  keyChanges : List String
deriving DecidableEq, Repr

/-- Result record of analyzeQuarterOverQuarter
(interface TrendAnalysis in src/app/types/index.ts). -/
structure TrendAnalysis where
  quarters : List String
  sentimentTrend : SentimentTrend
  quarterOverQuarterChanges : List QuarterChange
  strategicEvolution : List EvolutionEntry
  overallTrendSummary : OverallTrendSummary
deriving DecidableEq, Repr

/-- Characters matched by the regex class backslash-s of JavaScript, restricted
to the ASCII range that can occur in quarter labels. -/
def isJsSpace (c : Char) : Bool :=
  c = ' ' || c = '\t' || c = '\n' || c = '\r' || c = '\x0b' || c = '\x0c'

/-- Numeric value of a list of decimal digit characters, as parseInt reads a
capture group consisting of digits. -/
def digitsToNat (ds : List Char) : Nat :=
  ds.foldl (fun acc c => 10 * acc + (c.toNat - '0'.toNat)) 0

/-- Attempt to match the regex Q(backslash-d+)(backslash-s+)(backslash-d+) at
the head of the character list. Greedy repetition is equivalent to maximal munch
here because digit and space classes are disjoint. Returns the two captured
numbers (quarter number, year). -/
def matchQuarterAt : List Char → Option (Nat × Nat)
  | 'Q' :: rest =>
    let digits1 := rest.takeWhile Char.isDigit
    let rest1 := rest.dropWhile Char.isDigit
    if digits1.isEmpty then none
    else
      let spaces := rest1.takeWhile isJsSpace
      let rest2 := rest1.dropWhile isJsSpace
      if spaces.isEmpty then none
      else
        let digits2 := rest2.takeWhile Char.isDigit
        if digits2.isEmpty then none
        else some (digitsToNat digits1, digitsToNat digits2)
  | _ => none

/-- Unanchored regex search, trying each start position left to right, as
String.prototype.match does. -/
def searchQuarter : List Char → Option (Nat × Nat)
  | [] => none
  | c :: rest =>
    match matchQuarterAt (c :: rest) with
    | some r => some r
    | none => searchQuarter rest

/-- Models parseQuarter of trend-analyzer.ts: match the label against the
unanchored regex; none models the thrown invalid-quarter-format Error. -/
def parseQuarter (quarter : String) : Option (Nat × Nat) :=
  searchQuarter quarter.data

/-- Sort key of one record: the comparator orders by year first, then by
quarter number. A record whose label does not parse has no key; the comparator
throws on it, which sortInsightsByQuarter models separately. -/
def quarterKey (i : QuarterlyInsights) : Nat × Nat :=
  match parseQuarter i.quarter with
  | some (q, year) => (year, q)
  | none => (0, 0)

/-- Strict comparator order on records: true when a sorts strictly before b. -/
def keyLt (a b : QuarterlyInsights) : Bool :=
  (quarterKey a).1 < (quarterKey b).1 ||
    ((quarterKey a).1 = (quarterKey b).1 && (quarterKey a).2 < (quarterKey b).2)

/-- Stable insertion into an already sorted list: an element is placed before
the first element that does not sort strictly before it, so elements comparing
equal keep their original relative order, as the stable Array.prototype.sort
guarantees. -/
def insertByKey (x : QuarterlyInsights) : List QuarterlyInsights → List QuarterlyInsights
  | [] => [x]
  | y :: ys => if keyLt y x then y :: insertByKey x ys else x :: y :: ys

/-- Stable insertion sort; produces the unique stable-sort result that the
consistent numeric comparator of sortInsightsByQuarter yields under V8. -/
def insertionSortByKey : List QuarterlyInsights → List QuarterlyInsights
  | [] => []
  | x :: xs => insertByKey x (insertionSortByKey xs)

/-- Models sortInsightsByQuarter of trend-analyzer.ts. Array.prototype.sort
invokes the comparator only when the array has at least two elements, and with
at least two elements every element takes part in at least one comparison, so
the parseQuarter throw fires exactly when the list has length at least two and
contains a record with an unparseable label. Which malformed label ends up in
the message depends on the comparison schedule; the model uses the first one in
array order, and no claim depends on the message text. -/
def sortInsightsByQuarter (insights : List QuarterlyInsights) :
    Except String (List QuarterlyInsights) :=
  if insights.length < 2 then .ok insights
  else
    match insights.find? (fun i => (parseQuarter i.quarter).isNone) with
    | some bad => .error ("Invalid quarter format: " ++ bad.quarter)
    | none => .ok (insertionSortByKey insights)

/-- Models the JavaScript truthiness fallback to the neutral label in
expressions of the form sentiment-or-neutral: the empty string is falsy. The
optional-chaining part cannot fire because the field is present in the model,
matching the TypeScript type. -/
def sentimentOrNeutral (s : String) : String :=
  if s = "" then "neutral" else s

/-- One point of analyzeSentimentTrends: quarter, score (score-or-zero is the
identity on rationals since zero falls back to zero) and label. -/
def sentimentPoint (quarter : String) (sa : SentimentAnalysis) : SentimentPoint :=
  { quarter := quarter, score := sa.score, sentiment := sentimentOrNeutral sa.sentiment }

/-- Models analyzeSentimentTrends of trend-analyzer.ts. -/
def analyzeSentimentTrends (insights : List QuarterlyInsights) : SentimentTrend :=
  { management := insights.map (fun i => sentimentPoint i.quarter i.managementSentiment)
    qa := insights.map (fun i => sentimentPoint i.quarter i.qaSentiment) }

/-- Models describeSentimentShift of trend-analyzer.ts. The source looks the
label up in the table negative = 0, neutral = 1, positive = 2 and then applies
the JavaScript or-one fallback, under which both an unknown label (undefined)
and the value 0 of the negative label are falsy and coerce to 1. -/
def sentimentOrdJS (s : String) : Nat :=
  let looked : Option Nat :=
    if s = "negative" then some 0
    else if s = "neutral" then some 1
    else if s = "positive" then some 2
    else none
  match looked with
  | some n => if n = 0 then 1 else n
  | none => 1

/-- Models describeSentimentShift of trend-analyzer.ts, including the or-one
coercion captured by sentimentOrdJS. -/
def describeSentimentShift (fromLabel toLabel : String) : String :=
  if fromLabel = toLabel then "No change"
  else
    let fromScore := sentimentOrdJS fromLabel
    let toScore := sentimentOrdJS toLabel
    if toScore > fromScore then "Improved from " ++ fromLabel ++ " to " ++ toLabel
    else if toScore < fromScore then "Declined from " ++ fromLabel ++ " to " ++ toLabel
    else "No change"

/-- Models getChangeSignificance of trend-analyzer.ts, with scores as exact
rationals. -/
def getChangeSignificance (scoreDelta : ℚ) : Significance :=
  let absChange := |scoreDelta|
  if absChange ≥ 1/2 then .major
  else if absChange ≥ 1/5 then .moderate
  else .minor

/-- One change record of analyzeQuarterChanges for an adjacent (previous,
current) pair of records. -/
def mkQuarterChange (previous current : QuarterlyInsights) : QuarterChange :=
  let mgmtScoreDelta := current.managementSentiment.score - previous.managementSentiment.score
  let qaScoreDelta := current.qaSentiment.score - previous.qaSentiment.score
  { quarter := current.quarter
    managementChange :=
      { scoreDelta := mgmtScoreDelta
        sentimentShift := describeSentimentShift
          (sentimentOrNeutral previous.managementSentiment.sentiment)
          (sentimentOrNeutral current.managementSentiment.sentiment)
        significance := getChangeSignificance mgmtScoreDelta }
    qaChange :=
      { scoreDelta := qaScoreDelta
        sentimentShift := describeSentimentShift
          (sentimentOrNeutral previous.qaSentiment.sentiment)
          (sentimentOrNeutral current.qaSentiment.sentiment)
        significance := getChangeSignificance qaScoreDelta } }

/-- Loop of analyzeQuarterChanges: one change record per element of the tail,
each paired with its predecessor. -/
def changesFrom : QuarterlyInsights → List QuarterlyInsights → List QuarterChange
  | _, [] => []
  | prev, c :: rest => mkQuarterChange prev c :: changesFrom c rest

/-- Models analyzeQuarterChanges of trend-analyzer.ts: the loop runs from index
one, so an empty or singleton list yields no change records. -/
def analyzeQuarterChanges : List QuarterlyInsights → List QuarterChange
  | [] => []
  | first :: rest => changesFrom first rest

/-- Theme-name list of one record, in strategicFocuses order. -/
def themeList (i : QuarterlyInsights) : List String :=
  i.strategicFocuses.map (·.theme)

/-- Models spreading a JavaScript Set built from a list back into an array:
duplicates are dropped, keeping the first occurrence in insertion order. -/
def dedupAux (seen : List String) : List String → List String
  | [] => []
  | x :: xs => if x ∈ seen then dedupAux seen xs else x :: dedupAux (x :: seen) xs

/-- Spread of new Set(l) into an array. -/
def jsSetToList (l : List String) : List String :=
  dedupAux [] l

/-- One entry of analyzeStrategicEvolution for a current record and its
optional predecessor: theme-name Sets are diffed and intersected with filter
and Set.has, and the declining list is hard-coded empty when there is no
predecessor. -/
def evolutionEntry (previous : Option QuarterlyInsights) (current : QuarterlyInsights) :
    EvolutionEntry :=
  let currentThemes := jsSetToList (themeList current)
  let previousThemes := jsSetToList (match previous with
    | some p => themeList p
    | none => [])
  { quarter := current.quarter
    emergingThemes := currentThemes.filter (fun t => !(previousThemes.contains t))
    decliningThemes := match previous with
      | some _ => previousThemes.filter (fun t => !(currentThemes.contains t))
      | none => []
    consistentThemes := currentThemes.filter (fun t => previousThemes.contains t) }

/-- Loop of analyzeStrategicEvolution: index zero has no predecessor, every
later index pairs with the element before it. -/
def evolutionFrom : Option QuarterlyInsights → List QuarterlyInsights → List EvolutionEntry
  | _, [] => []
  | prev, c :: rest => evolutionEntry prev c :: evolutionFrom (some c) rest

/-- Models analyzeStrategicEvolution of trend-analyzer.ts. -/
def analyzeStrategicEvolution (insights : List QuarterlyInsights) : List EvolutionEntry :=
  evolutionFrom none insights

/-- Models calculateOverallTrend of trend-analyzer.ts: with fewer than two
points the trend is stable, otherwise it compares last score minus first score
against the 0.2 thresholds. -/
def calculateOverallTrend (sentimentData : List SentimentPoint) : Trend :=
  match sentimentData with
  | [] => .stable
  | [_] => .stable
  | x :: y :: rest =>
    let firstScore := x.score
    let lastScore := ((y :: rest).getLast (List.cons_ne_nil y rest)).score
    let difference := lastScore - firstScore
    if difference > 1/5 then .improving
    else if difference < -(1/5) then .declining
    else .stable

/-- Models getMostCommonTheme of trend-analyzer.ts: object keys are visited in
first-occurrence order and the entries are stably sorted by descending count,
so the result is the first-encountered theme achieving the maximal count. -/
def getMostCommonTheme (themes : List String) : Option String :=
  match jsSetToList themes with
  | [] => none
  | k :: ks => some (ks.foldl
      (fun best t => if themes.count t > themes.count best then t else best) k)

/-- Models identifyKeyChanges of trend-analyzer.ts. -/
def identifyKeyChanges (st : SentimentTrend) (evolution : List EvolutionEntry) :
    List String :=
  let mgmtTrend := calculateOverallTrend st.management
  let qaTrend := calculateOverallTrend st.qa
  let allEmergingThemes := (evolution.map (·.emergingThemes)).flatten
  let changes :=
    (if mgmtTrend = .improving then ["Management sentiment has improved over time"]
     else if mgmtTrend = .declining then ["Management sentiment has declined over time"]
     else []) ++
    (if qaTrend = .improving then ["Q&A sentiment has become more positive"]
     else if qaTrend = .declining then ["Q&A sentiment has become more negative"]
     else []) ++
    (if allEmergingThemes.length > 0 then
      ["New strategic focus areas emerged: " ++
        String.intercalate ", " (allEmergingThemes.take 2)]
     else [])
  if changes.length > 0 then changes
  else ["No significant changes detected across quarters"]

/-- Models generateTrendSummary of trend-analyzer.ts. -/
def generateTrendSummary (st : SentimentTrend) (evolution : List EvolutionEntry) :
    OverallTrendSummary :=
  let managementTrend := calculateOverallTrend st.management
  let qaTrend := calculateOverallTrend st.qa
  let allEmergingThemes := (evolution.map (·.emergingThemes)).flatten
  let strategicShift :=
    (getMostCommonTheme allEmergingThemes).getD "No significant strategic shifts detected"
  { managementTrend := managementTrend
    qaTrend := qaTrend
    strategicShift := strategicShift
    keyChanges := identifyKeyChanges st evolution }

/-- Models getEmptyTrendAnalysis of trend-analyzer.ts, the report built for
fewer than two records. The sentiment-series mapping is textually duplicated in
the source and coincides with analyzeSentimentTrends. The per-record evolution
entries keep the raw theme list (no Set is built on this path). -/
def getEmptyTrendAnalysis (insights : List QuarterlyInsights) : TrendAnalysis :=
  { quarters := insights.map (·.quarter)
    sentimentTrend := analyzeSentimentTrends insights
    quarterOverQuarterChanges := []
    strategicEvolution := insights.map (fun i =>
      { quarter := i.quarter
        emergingThemes := []
        decliningThemes := []
        consistentThemes := themeList i })
    overallTrendSummary :=
      { managementTrend := .stable
        qaTrend := .stable
        strategicShift := "Insufficient data for trend analysis"
        keyChanges := ["Need at least 2 quarters for comparison"] } }

/-- Main-path report of analyzeQuarterOverQuarter for an already sorted list of
at least two records. -/
def buildTrendAnalysis (sortedInsights : List QuarterlyInsights) : TrendAnalysis :=
  let sentimentTrend := analyzeSentimentTrends sortedInsights
  let strategicEvolution := analyzeStrategicEvolution sortedInsights
  { quarters := sortedInsights.map (·.quarter)
    sentimentTrend := sentimentTrend
    quarterOverQuarterChanges := analyzeQuarterChanges sortedInsights
    strategicEvolution := strategicEvolution
    overallTrendSummary := generateTrendSummary sentimentTrend strategicEvolution }

/-- Models analyzeQuarterOverQuarter of trend-analyzer.ts: sort (which can
throw on a malformed label), early-return the degenerate report for fewer than
two records, otherwise assemble the full report. -/
def analyzeQuarterOverQuarter (insights : List QuarterlyInsights) :
    Except String TrendAnalysis :=
  match sortInsightsByQuarter insights with
  | .error e => .error e
  | .ok sortedInsights =>
    .ok (if sortedInsights.length < 2 then getEmptyTrendAnalysis sortedInsights
         else buildTrendAnalysis sortedInsights)

/-- Contents of the caller array after a successful analyzeQuarterOverQuarter
call: sortInsightsByQuarter applies Array.prototype.sort, which reorders the
argument array in place and returns the same array object, so on the success
path the caller ends up holding exactly the sorted order. -/
def insightsAfterCall (insights : List QuarterlyInsights) :
    Except String (List QuarterlyInsights) :=
  sortInsightsByQuarter insights

/-- One row of the fixed scenario table of generateRealisticSampleData in
transcript-collector.ts. -/
structure SampleScenario where
  quarter : String
  sentiment : String
  themes : List String
  revenue : String
deriving DecidableEq, Repr

/-- The fixed four-row scenario table of generateRealisticSampleData. -/
def sampleScenarios : List SampleScenario :=
  [ { quarter := "Q4 2024", sentiment := "very positive"
      themes := ["AI Revolution", "Data Center Growth", "Gaming Strength"]
      revenue := "$60.9B" }
  , { quarter := "Q3 2024", sentiment := "positive"
      themes := ["AI Demand", "Cloud Computing", "Automotive AI"]
      revenue := "$35.1B" }
  , { quarter := "Q2 2024", sentiment := "mixed positive"
      themes := ["Generative AI", "Enterprise Adoption", "Supply Chain"]
      revenue := "$30.0B" }
  , { quarter := "Q1 2024", sentiment := "cautiously optimistic"
      themes := ["AI Infrastructure", "Gaming Recovery", "Professional Visualization"]
      revenue := "$26.0B" } ]

/-- Synthetic transcript as produced by generateRealisticSampleData; the fields
derived from the wall clock (id, date, createdAt, updatedAt) and the templated
prose bodies are abstracted away, keeping the fields the claims exercise: the
per-position scenario assignment and the fixed constant fields. -/
structure SyntheticTranscript where
  quarter : String
  fiscalYear : Nat
  company : String
  participants : List String
  scenario : SampleScenario
deriving DecidableEq, Repr

/-- The per-scenario document of generateRealisticSampleData. -/
def mkSyntheticTranscript (scen : SampleScenario) : SyntheticTranscript :=
  { quarter := scen.quarter
    fiscalYear := 2024
    company := "NVIDIA"
    participants :=
      [ "Jensen Huang - CEO", "Colette Kress - CFO"
      , "Simona Jankowski - Investor Relations", "Various Wall Street Analysts" ]
    scenario := scen }

/-- Models generateRealisticSampleData of transcript-collector.ts: the scenario
table is cut with slice(0, count) and each kept row is mapped to one document.
slice never extends past the table, so more than four documents are never
produced. This is also the value of collectNvidiaTranscripts on the path where
every adapter and every candidate fetch has failed. -/
def generateRealisticSampleData (count : Nat) : List SyntheticTranscript :=
  (sampleScenarios.take count).map mkSyntheticTranscript

/-- A JSON value, the possible results of JSON.parse on an analysis-service
response body. -/
inductive Json where
  | null
  | bool (b : Bool)
  | num (q : ℚ)
  | str (s : String)
  | arr (elems : List Json)
  | obj (fields : List (String × Json))

/-- Property access on a parsed JSON value: defined only on objects; JSON.parse
output has unique keys, so first-match lookup is exact. -/
def Json.getField (j : Json) (key : String) : Option Json :=
  match j with
  | .obj fields => (fields.find? (fun p => p.1 = key)).map (·.2)
  | _ => none

/-- JavaScript truthiness of a JSON value. -/
def Json.truthy : Json → Bool
  | .null => false
  | .bool b => b
  | .num q => decide (q ≠ 0)
  | .str s => decide (s ≠ "")
  | .arr _ => true
  | .obj _ => true

/-- Outcome of one analysis-service call as the engine observes it:
transportError models the axios/openai call throwing (timeout, connection
error, non-2xx); content none models a response body that JSON.parse rejects;
content (some j) models a body that parses to the JSON value j, whether or not
j conforms to the requested response schema. -/
inductive ApiOutcome where
  | transportError
  | content (parsed : Option Json)

/-- The getDefaultSentiment fallback of analysis-engine.ts as a JSON value. -/
def defaultSentimentJson : Json :=
  .obj [ ("sentiment", .str "neutral"), ("score", .num 0)
       , ("confidence", .num (1/2))
       , ("keyPhrases", .arr [.str "analysis unavailable"])
       , ("reasoning", .str "Unable to analyze sentiment due to API error") ]

/-- The getDefaultStrategicFocus fallback of analysis-engine.ts as a JSON value. -/
def defaultStrategicFocusJson : Json :=
  .arr [ .obj [ ("theme", .str "General Business Operations"), ("mentions", .num 1)
              , ("importance", .num (1/2))
              , ("quotes", .arr [.str "Analysis unavailable"])
              , ("category", .str "strategic") ] ]

/-- Models analyzeMgmtSentiment of analysis-engine.ts: the try block covers the
service call and JSON.parse, so a transport error or an unparseable body is
replaced by getDefaultSentiment; a body that parses is returned as-is, with no
schema validation. -/
def analyzeMgmtSentiment : ApiOutcome → Json
  | .transportError => defaultSentimentJson
  | .content none => defaultSentimentJson
  | .content (some j) => j

/-- Models analyzeQASentiment of analysis-engine.ts; same shape as the
management variant. -/
def analyzeQASentiment : ApiOutcome → Json
  | .transportError => defaultSentimentJson
  | .content none => defaultSentimentJson
  | .content (some j) => j

/-- Models extractStrategicFocus of analysis-engine.ts: transport errors and
unparseable bodies fall back to getDefaultStrategicFocus; a body parsing to
null makes the themes property access throw inside the try block, also giving
the fallback; otherwise the themes property is read with the or-empty-array
coercion (a missing or falsy themes property yields an empty array). -/
def extractStrategicFocus : ApiOutcome → Json
  | .transportError => defaultStrategicFocusJson
  | .content none => defaultStrategicFocusJson
  | .content (some j) =>
    match j with
    | .null => defaultStrategicFocusJson
    | _ =>
      match j.getField "themes" with
      | some v => if v.truthy then v else .arr []
      | none => .arr []

/-- Record assembled by analyzeTranscript of analysis-engine.ts from the three
sub-call results; sentiment and theme fields hold whatever JSON value the
sub-call produced, since the source performs no schema validation. -/
structure TranscriptAnalysisOutcome where
  transcriptId : String
  quarter : String
  managementSentiment : Json
  qaSentiment : Json
  strategicFocuses : Json

/-- Models analyzeTranscript of analysis-engine.ts as a function of the three
independent sub-call outcomes: each field is produced by its own sub-call with
its own fallback; no outcome can abort the record (the only rethrow in the
source is unreachable because every sub-call resolves). -/
def analyzeTranscript (transcriptId quarter : String)
    (mgmt qa themes : ApiOutcome) : TranscriptAnalysisOutcome :=
  { transcriptId := transcriptId
    quarter := quarter
    managementSentiment := analyzeMgmtSentiment mgmt
    qaSentiment := analyzeQASentiment qa
    strategicFocuses := extractStrategicFocus themes }

/-- Conformance of a JSON value to the sentiment response schema stated in the
prompts of analysis-engine.ts: a categorical sentiment label, a score in
[-1, 1], a confidence in [0, 1], a key-phrase string array and a reasoning
string. -/
def isValidSentimentJson (j : Json) : Bool :=
  (match j.getField "sentiment" with
    | some (.str s) => s = "positive" || s = "neutral" || s = "negative"
    | _ => false) &&
  (match j.getField "score" with
    | some (.num q) => decide (-1 ≤ q ∧ q ≤ 1)
    | _ => false) &&
  (match j.getField "confidence" with
    | some (.num q) => decide (0 ≤ q ∧ q ≤ 1)
    | _ => false) &&
  (match j.getField "keyPhrases" with
    | some (.arr es) => es.all (fun e => match e with | .str _ => true | _ => false)
    | _ => false) &&
  (match j.getField "reasoning" with
    | some (.str _) => true
    | _ => false)

/-- Neutral positive sentiment used by the concrete test fixtures. -/
def mkSentiment (label : String) (score : ℚ) : SentimentAnalysis :=
  { sentiment := label, score := score, confidence := 9/10
    keyPhrases := [], reasoning := "" }

/-- A theme fixture with the given name. -/
def mkFocus (name : String) : StrategicFocus :=
  { theme := name, mentions := 1, importance := 1/2, quotes := [], category := "strategic" }

/-- Fixture record for Q1 2024 with theme AI. -/
def cxA : QuarterlyInsights :=
  { transcriptId := "t1", quarter := "Q1 2024"
    managementSentiment := mkSentiment "positive" (1/10)
    qaSentiment := mkSentiment "neutral" 0
    strategicFocuses := [mkFocus "AI"] }

/-- Fixture record for Q2 2024 with themes AI and Gaming. -/
def cxB : QuarterlyInsights :=
  { transcriptId := "t2", quarter := "Q2 2024"
    managementSentiment := mkSentiment "positive" (3/10)
    qaSentiment := mkSentiment "neutral" 0
    strategicFocuses := [mkFocus "AI", mkFocus "Gaming"] }

/-- Fixture record whose quarter label does not match the Q-number-year
format. -/
def badRec : QuarterlyInsights :=
  { transcriptId := "t3", quarter := "Quarter One 2024"
    managementSentiment := mkSentiment "neutral" 0
    qaSentiment := mkSentiment "neutral" 0
    strategicFocuses := [mkFocus "AI"] }

/-- Fixture record whose management sentiment label is negative. -/
def negRec : QuarterlyInsights :=
  { transcriptId := "t4", quarter := "Q1 2024"
    managementSentiment := mkSentiment "negative" (-4/10)
    qaSentiment := mkSentiment "neutral" 0
    strategicFocuses := [] }

/-- Fixture record whose management sentiment label is neutral, one quarter
after negRec. -/
def neuRec : QuarterlyInsights :=
  { transcriptId := "t5", quarter := "Q2 2024"
    managementSentiment := mkSentiment "neutral" (1/10)
    qaSentiment := mkSentiment "neutral" 0
    strategicFocuses := [] }

/-- Default insight used only as a getD placeholder in theorem statements. -/
def dfltInsight : QuarterlyInsights :=
  { transcriptId := "", quarter := ""
    managementSentiment := mkSentiment "neutral" 0
    qaSentiment := mkSentiment "neutral" 0
    strategicFocuses := [] }

/-- Default evolution entry used only as a getD placeholder in theorem
statements. -/
def dfltEvo : EvolutionEntry :=
  { quarter := "", emergingThemes := [], decliningThemes := [], consistentThemes := [] }

/-- The report computes on the sorted two-record fixture input. -/
def cxReport : TrendAnalysis :=
  (analyzeQuarterOverQuarter [cxA, cxB]).toOption.getD (getEmptyTrendAnalysis [])


theorem contains_true_iff (l : List String) (a : String) : l.contains a = true ↔ a ∈ l :=
  List.elem_iff

theorem contains_false_iff (l : List String) (a : String) : l.contains a = false ↔ a ∉ l := by
  constructor
  · intro h hmem
    rw [← contains_true_iff] at hmem
    rw [h] at hmem
    exact Bool.noConfusion hmem
  · intro h
    cases hc : l.contains a with
    | false => rfl
    | true => exact absurd ((contains_true_iff l a).mp hc) h

theorem mem_dedupAux (t : String) (l : List String) :
    ∀ seen : List String, t ∈ dedupAux seen l ↔ t ∈ l ∧ t ∉ seen := by
  induction l with
  | nil => intro seen; simp [dedupAux]
  | cons x xs ih =>
    intro seen
    by_cases hx : x ∈ seen
    · simp only [dedupAux, if_pos hx, ih, List.mem_cons]
      constructor
      · rintro ⟨h1, h2⟩
        exact ⟨Or.inr h1, h2⟩
      · rintro ⟨h1 | h1, h2⟩
        · subst h1; exact absurd hx h2
        · exact ⟨h1, h2⟩
    · simp only [dedupAux, if_neg hx, List.mem_cons, ih]
      constructor
      · rintro (rfl | ⟨h1, h2⟩)
        · exact ⟨Or.inl rfl, hx⟩
        · simp only [List.mem_cons, not_or] at h2
          exact ⟨Or.inr h1, h2.2⟩
      · rintro ⟨rfl | h1, h2⟩
        · exact Or.inl rfl
        · by_cases htx : t = x
          · exact Or.inl htx
          · refine Or.inr ⟨h1, ?_⟩
            simp only [List.mem_cons, not_or]
            exact ⟨htx, h2⟩

theorem mem_jsSetToList (t : String) (l : List String) : t ∈ jsSetToList l ↔ t ∈ l := by
  simp [jsSetToList, mem_dedupAux]

theorem mem_filter_not_contains (l P : List String) (t : String) :
    t ∈ l.filter (fun a => !(P.contains a)) ↔ t ∈ l ∧ t ∉ P := by
  rw [List.mem_filter]
  refine and_congr_right fun _ => ?_
  rw [Bool.not_eq_true']
  exact contains_false_iff P t

theorem mem_filter_contains (l P : List String) (t : String) :
    t ∈ l.filter (fun a => P.contains a) ↔ t ∈ l ∧ t ∈ P := by
  rw [List.mem_filter]
  exact and_congr_right fun _ => contains_true_iff P t

theorem evolutionEntry_some_emerging (p c : QuarterlyInsights) (t : String) :
    t ∈ (evolutionEntry (some p) c).emergingThemes ↔
      t ∈ themeList c ∧ t ∉ themeList p := by
  simp only [evolutionEntry]
  rw [mem_filter_not_contains, mem_jsSetToList]
  exact and_congr_right fun _ => not_congr (mem_jsSetToList t _)

theorem evolutionEntry_some_declining (p c : QuarterlyInsights) (t : String) :
    t ∈ (evolutionEntry (some p) c).decliningThemes ↔
      t ∈ themeList p ∧ t ∉ themeList c := by
  simp only [evolutionEntry]
  rw [mem_filter_not_contains, mem_jsSetToList]
  exact and_congr_right fun _ => not_congr (mem_jsSetToList t _)

theorem evolutionEntry_some_consistent (p c : QuarterlyInsights) (t : String) :
    t ∈ (evolutionEntry (some p) c).consistentThemes ↔
      t ∈ themeList c ∧ t ∈ themeList p := by
  simp only [evolutionEntry]
  rw [mem_filter_contains, mem_jsSetToList]
  exact and_congr_right fun _ => mem_jsSetToList t _

theorem evolutionEntry_none_emerging (c : QuarterlyInsights) (t : String) :
    t ∈ (evolutionEntry none c).emergingThemes ↔ t ∈ themeList c := by
  simp only [evolutionEntry]
  rw [mem_filter_not_contains, mem_jsSetToList]
  simp [jsSetToList, dedupAux]

theorem evolutionEntry_none_declining (c : QuarterlyInsights) :
    (evolutionEntry none c).decliningThemes = [] := rfl

theorem evolutionEntry_none_consistent (c : QuarterlyInsights) :
    (evolutionEntry none c).consistentThemes = [] := by
  simp only [evolutionEntry]
  exact List.filter_eq_nil_iff.mpr fun a _ h => Bool.noConfusion h

theorem evolutionFrom_length (prev : Option QuarterlyInsights)
    (l : List QuarterlyInsights) : (evolutionFrom prev l).length = l.length := by
  induction l generalizing prev with
  | nil => rfl
  | cons c rest ih => simp [evolutionFrom, ih]

theorem evolutionFrom_getD (l : List QuarterlyInsights) :
    ∀ (prev : Option QuarterlyInsights) (i : Nat), i < l.length →
      (evolutionFrom prev l).getD i dfltEvo =
        evolutionEntry (if i = 0 then prev else some (l.getD (i - 1) dfltInsight))
          (l.getD i dfltInsight) := by
  induction l with
  | nil => intro prev i hi; simp at hi
  | cons c rest ih =>
    intro prev i hi
    cases i with
    | zero => rfl
    | succ k =>
      have hk : k < rest.length := by simpa using hi
      simp only [evolutionFrom, List.getD_cons_succ]
      rw [ih (some c) k hk]
      cases k with
      | zero => rfl
      | succ m => rfl

theorem changesFrom_length (prev : QuarterlyInsights) (l : List QuarterlyInsights) :
    (changesFrom prev l).length = l.length := by
  induction l generalizing prev with
  | nil => rfl
  | cons c rest ih => simp [changesFrom, ih]

theorem changesFrom_significance (prev : QuarterlyInsights) (l : List QuarterlyInsights) :
    ∀ ch ∈ changesFrom prev l,
      ch.managementChange.significance =
        getChangeSignificance ch.managementChange.scoreDelta ∧
      ch.qaChange.significance = getChangeSignificance ch.qaChange.scoreDelta := by
  induction l generalizing prev with
  | nil => intro ch hch; simp [changesFrom] at hch
  | cons c rest ih =>
    intro ch hch
    rcases List.mem_cons.mp hch with rfl | h
    · exact ⟨rfl, rfl⟩
    · exact ih c ch h

theorem insertByKey_perm (x : QuarterlyInsights) (l : List QuarterlyInsights) :
    (insertByKey x l).Perm (x :: l) := by
  induction l with
  | nil => exact List.Perm.refl _
  | cons y ys ih =>
    simp only [insertByKey]
    by_cases h : keyLt y x
    · rw [if_pos h]
      exact (List.Perm.cons y ih).trans (List.Perm.swap x y ys)
    · rw [if_neg h]

theorem insertionSortByKey_perm (l : List QuarterlyInsights) :
    (insertionSortByKey l).Perm l := by
  induction l with
  | nil => exact List.Perm.refl _
  | cons x xs ih =>
    exact (insertByKey_perm x (insertionSortByKey xs)).trans (List.Perm.cons x ih)

theorem sortInsightsByQuarter_ok_perm (l s : List QuarterlyInsights)
    (h : sortInsightsByQuarter l = .ok s) : s.Perm l := by
  by_cases hlen : l.length < 2
  · simp only [sortInsightsByQuarter, if_pos hlen, Except.ok.injEq] at h
    exact h ▸ List.Perm.refl l
  · cases hf : l.find? (fun i => (parseQuarter i.quarter).isNone) with
    | some bad => simp [sortInsightsByQuarter, if_neg hlen, hf] at h
    | none =>
      simp only [sortInsightsByQuarter, if_neg hlen, hf, Except.ok.injEq] at h
      exact h ▸ insertionSortByKey_perm l

theorem sortInsightsByQuarter_error_of_malformed (l : List QuarterlyInsights)
    (h2 : 2 ≤ l.length) (hbad : ∃ i ∈ l, parseQuarter i.quarter = none) :
    ∃ e, sortInsightsByQuarter l = .error e := by
  have hfind : (l.find? (fun i => (parseQuarter i.quarter).isNone)).isSome := by
    rw [List.find?_isSome]
    obtain ⟨i, hi, hp⟩ := hbad
    exact ⟨i, hi, by simp [hp]⟩
  obtain ⟨bad, hfind⟩ := Option.isSome_iff_exists.mp hfind
  refine ⟨"Invalid quarter format: " ++ bad.quarter, ?_⟩
  unfold sortInsightsByQuarter
  rw [if_neg (by omega), hfind]

theorem analyzeQOQ_ok_iff (l : List QuarterlyInsights) (r : TrendAnalysis) :
    analyzeQuarterOverQuarter l = .ok r ↔
      ∃ s, sortInsightsByQuarter l = .ok s ∧
        r = if s.length < 2 then getEmptyTrendAnalysis s else buildTrendAnalysis s := by
  unfold analyzeQuarterOverQuarter
  cases h : sortInsightsByQuarter l with
  | error e => simp
  | ok s0 => simp [eq_comm]

theorem analyzeQOQ_short (l : List QuarterlyInsights) (hlen : l.length < 2) :
    analyzeQuarterOverQuarter l = .ok (getEmptyTrendAnalysis l) := by
  unfold analyzeQuarterOverQuarter sortInsightsByQuarter
  rw [if_pos hlen]
  simp [hlen]

/-- C7: the significance tier is a total deterministic function of the
absolute score delta with inclusive lower bounds: major iff 0.5 is at most
the absolute delta, moderate iff the absolute delta lies in [0.2, 0.5), minor
iff it is below 0.2; and every change record built by the quarter-change loop
carries exactly this function of its own scoreDelta, for management and QA
alike. -/
theorem changeSignificance_spec :
    (∀ d : ℚ,
      (getChangeSignificance d = .major ↔ 1/2 ≤ |d|) ∧
      (getChangeSignificance d = .moderate ↔ 1/5 ≤ |d| ∧ |d| < 1/2) ∧
      (getChangeSignificance d = .minor ↔ |d| < 1/5)) ∧
    (∀ (prev : QuarterlyInsights) (l : List QuarterlyInsights),
      ∀ ch ∈ changesFrom prev l,
        ch.managementChange.significance =
          getChangeSignificance ch.managementChange.scoreDelta ∧
        ch.qaChange.significance = getChangeSignificance ch.qaChange.scoreDelta) := by
  constructor
  · intro d
    unfold getChangeSignificance
    by_cases h1 : (1/2 : ℚ) ≤ |d|
    · rw [if_pos h1]
      refine ⟨⟨fun _ => h1, fun _ => rfl⟩, ?_, ?_⟩
      · constructor
        · intro h; exact absurd h (by decide)
        · rintro ⟨-, h⟩; linarith
      · constructor
        · intro h; exact absurd h (by decide)
        · intro h; linarith
    · rw [if_neg h1]
      by_cases h2 : (1/5 : ℚ) ≤ |d|
      · rw [if_pos h2]
        refine ⟨?_, ⟨fun _ => ⟨h2, lt_of_not_le h1⟩, fun _ => rfl⟩, ?_⟩
        · constructor
          · intro h; exact absurd h (by decide)
          · intro h; exact absurd h h1
        · constructor
          · intro h; exact absurd h (by decide)
          · intro h; linarith
      · rw [if_neg h2]
        refine ⟨?_, ?_, ⟨fun _ => lt_of_not_le h2, fun _ => rfl⟩⟩
        · constructor
          · intro h; exact absurd h (by decide)
          · intro h; exact absurd h h1
        · constructor
          · intro h; exact absurd h (by decide)
          · rintro ⟨h, -⟩; exact absurd h h2
  · exact changesFrom_significance

/-- C7 witness: the boundary inputs of the claim, and one concrete change
record, evaluated through the theorem. -/
theorem changeSignificance_witness :
    getChangeSignificance (1/2) = .major ∧
    getChangeSignificance (49999/100000) = .moderate ∧
    getChangeSignificance (1/5) = .moderate ∧
    getChangeSignificance (19999/100000) = .minor ∧
    (mkQuarterChange cxA cxB).managementChange.significance =
      getChangeSignificance (mkQuarterChange cxA cxB).managementChange.scoreDelta := by
  refine ⟨?_, ?_, ?_, ?_, ?_⟩
  · exact (changeSignificance_spec.1 (1/2)).1.mpr
      (by rw [abs_of_nonneg (by norm_num)])
  · exact (changeSignificance_spec.1 (49999/100000)).2.1.mpr
      (by rw [abs_of_nonneg (by norm_num)]; norm_num)
  · exact (changeSignificance_spec.1 (1/5)).2.1.mpr
      (by rw [abs_of_nonneg (by norm_num)]; norm_num)
  · exact (changeSignificance_spec.1 (19999/100000)).2.2.mpr
      (by rw [abs_of_nonneg (by norm_num)]; norm_num)
  · exact (changeSignificance_spec.2 cxA [cxB] (mkQuarterChange cxA cxB)
      (List.mem_cons_self _ _)).1

/-- C2: evaluation of the sentiment-shift derivation at the failing input.
The source declares the ordinal table negative = 0, neutral = 1, positive = 2,
but the or-one fallback coerces the looked-up 0 of the negative label to 1, so
a change between unequal labels negative and neutral reports No change in both
directions instead of Improved or Declined, while the numeric score delta of
the same record is nonzero. -/
theorem sentimentShift_negative_neutral_eval :
    describeSentimentShift "negative" "neutral" = "No change" ∧
    describeSentimentShift "neutral" "negative" = "No change" ∧
    describeSentimentShift "negative" "positive" =
      "Improved from negative to positive" ∧
    (mkQuarterChange negRec neuRec).managementChange.sentimentShift = "No change" ∧
    (mkQuarterChange negRec neuRec).managementChange.scoreDelta = 1/2 :=
  ⟨rfl, rfl, rfl, rfl, by norm_num [mkQuarterChange, negRec, neuRec, mkSentiment]⟩

/-- C10: a single-record input whose quarter label is malformed returns the
degenerate report normally, because Array.prototype.sort never invokes the
comparator on a list of fewer than two elements, so parseQuarter is never
reached. -/
theorem single_malformed_degenerate_ok (q : QuarterlyInsights)
    (_hmal : parseQuarter q.quarter = none) :
    analyzeQuarterOverQuarter [q] = .ok (getEmptyTrendAnalysis [q]) :=
  analyzeQOQ_short [q] (by simp)

/-- C10 witness: the concrete malformed label of the spec example. -/
theorem single_malformed_degenerate_ok_witness :
    analyzeQuarterOverQuarter [badRec] = .ok (getEmptyTrendAnalysis [badRec]) :=
  single_malformed_degenerate_ok badRec (by decide)

/-- C4 counterexample: an input list containing a record with a malformed
quarter label on which analyzeQuarterOverQuarter does NOT fail: with a single
record the sort comparator never runs, so the degenerate report is produced
normally, contradicting the universally quantified claim. -/
theorem malformed_single_ok_counterexample :
    parseQuarter badRec.quarter = none ∧
    analyzeQuarterOverQuarter [badRec] = .ok (getEmptyTrendAnalysis [badRec]) :=
  ⟨by decide, rfl⟩

/-- C4 amended: for every input of at least two records in which some record
has a malformed quarter label (equivalently, the malformed-label search finds
one), analyzeQuarterOverQuarter fails with the invalid-quarter-format error
surfaced to its caller; inputs of fewer than two records never exercise this
path. -/
theorem malformed_label_error_amended (l : List QuarterlyInsights)
    (bad : QuarterlyInsights) (h2 : 2 ≤ l.length)
    (hbad : l.find? (fun i => (parseQuarter i.quarter).isNone) = some bad) :
    analyzeQuarterOverQuarter l = .error ("Invalid quarter format: " ++ bad.quarter) := by
  unfold analyzeQuarterOverQuarter sortInsightsByQuarter
  rw [if_neg (by omega), hbad]

/-- C4 witness: a two-record input with one malformed label fails with the
invalid-quarter-format error. -/
theorem malformed_label_error_witness :
    analyzeQuarterOverQuarter [cxA, badRec] =
      .error "Invalid quarter format: Quarter One 2024" :=
  malformed_label_error_amended [cxA, badRec] badRec (by decide) rfl

/-- C3 counterexample: on a single-record input the analyzer returns normally,
but its strategicEvolution list has one entry, not zero, contradicting the
empty-strategicEvolution conjunct of the claim. -/
theorem degenerate_evolution_nonempty_counterexample :
    (analyzeQuarterOverQuarter [cxA]).map (fun r => r.strategicEvolution.length) =
      .ok 1 ∧ (1 : Nat) ≠ 0 :=
  ⟨rfl, by decide⟩

/-- C3 amended: on 0 or 1 records the analyzer never fails and returns the
degenerate report: empty change list, both overall trends stable, and one
trivial evolution entry per input record (empty emerging and declining lists,
consistent equal to that record of theme names), so the evolution list has the
length of the input rather than length zero. -/
theorem degenerate_input_amended (l : List QuarterlyInsights) (hlen : l.length < 2) :
    analyzeQuarterOverQuarter l = .ok (getEmptyTrendAnalysis l) ∧
    (getEmptyTrendAnalysis l).quarterOverQuarterChanges = [] ∧
    (getEmptyTrendAnalysis l).strategicEvolution.length = l.length ∧
    (∀ i : Nat, (getEmptyTrendAnalysis l).strategicEvolution.get? i =
      (l.get? i).map (fun q =>
        { quarter := q.quarter, emergingThemes := [], decliningThemes := []
          consistentThemes := themeList q })) ∧
    (getEmptyTrendAnalysis l).overallTrendSummary.managementTrend = .stable ∧
    (getEmptyTrendAnalysis l).overallTrendSummary.qaTrend = .stable := by
  refine ⟨analyzeQOQ_short l hlen, rfl, by simp [getEmptyTrendAnalysis], ?_, rfl, rfl⟩
  intro i
  exact List.get?_map _ l i

/-- C3 witness: the degenerate report on a concrete single-record input. -/
theorem degenerate_input_amended_witness :
    analyzeQuarterOverQuarter [cxA] = .ok (getEmptyTrendAnalysis [cxA]) ∧
    (getEmptyTrendAnalysis [cxA]).strategicEvolution.length = 1 := by
  refine ⟨(degenerate_input_amended [cxA] (by decide)).1, ?_⟩
  have h := (degenerate_input_amended [cxA] (by decide)).2.2.1
  simpa using h

/-- C5 counterexample: analyzeQuarterOverQuarter mutates its argument. On the
unsorted input with cxB before cxA, the in-place sort leaves the caller array
holding cxA before cxB, which is not the original order. -/
theorem argument_mutation_counterexample :
    insightsAfterCall [cxB, cxA] = .ok [cxA, cxB] ∧
    ([cxA, cxB] : List QuarterlyInsights) ≠ [cxB, cxA] := by
  refine ⟨rfl, ?_⟩
  intro h
  injection h with h1 _
  have hq : cxA.quarter = cxB.quarter := congrArg QuarterlyInsights.quarter h1
  exact absurd hq (by decide)

/-- C5 amended: the function performs no I/O, but it reorders its argument
array in place through Array.prototype.sort; after a successful call the
caller array holds the same records as before, as a multiset, reordered
chronologically (a permutation of the input), not necessarily in the original
order. -/
theorem argument_permutation_amended (l s : List QuarterlyInsights)
    (h : insightsAfterCall l = .ok s) : s.Perm l :=
  sortInsightsByQuarter_ok_perm l s h

/-- C5 witness: the concrete reordered array is a permutation of the input. -/
theorem argument_permutation_witness :
    ([cxA, cxB] : List QuarterlyInsights).Perm [cxB, cxA] :=
  argument_permutation_amended [cxB, cxA] [cxA, cxB] rfl

/-- C6 counterexample: requesting five synthetic documents yields only four,
because slice truncates at the table and nothing cycles, contradicting the
exactly-n-for-every-n claim. -/
theorem sampleData_count_counterexample :
    (generateRealisticSampleData 5).length = 4 ∧ (4 : Nat) ≠ 5 :=
  ⟨rfl, by decide⟩

/-- C6 amended: when every source adapter and candidate fetch fails, the
collector returns min(n, 4) synthetic documents: the fixed scenario table is
truncated for n below four and caps the output at four above (never cycled);
position i always receives scenario i of the table, so re-running with the
same n yields the same number of documents in the same scenario order. -/
theorem sampleData_amended (n : Nat) :
    (generateRealisticSampleData n).length = min n 4 ∧
    ∀ i : Nat, i < n → (generateRealisticSampleData n).get? i =
      (sampleScenarios.get? i).map mkSyntheticTranscript := by
  constructor
  · unfold generateRealisticSampleData
    rw [List.length_map, List.length_take]
    rfl
  · intro i hi
    unfold generateRealisticSampleData
    rw [List.get?_map, List.get?_take hi]

/-- C6 witness: three requested documents give three documents, position one
holding scenario one. -/
theorem sampleData_amended_witness :
    (generateRealisticSampleData 3).length = 3 ∧
    (generateRealisticSampleData 3).get? 1 =
      (sampleScenarios.get? 1).map mkSyntheticTranscript := by
  refine ⟨?_, (sampleData_amended 3).2 1 (by decide)⟩
  have h := (sampleData_amended 3).1
  simpa using h

/-- C9 counterexample: a response body that parses to the JSON object with no
fields is schema-violating, yet the management-sentiment sub-call returns it
unchanged instead of substituting the documented neutral default, because the
source validates nothing after JSON.parse. -/
theorem schemaViolation_passthrough_counterexample :
    analyzeMgmtSentiment (.content (some (Json.obj []))) = Json.obj [] ∧
    isValidSentimentJson (Json.obj []) = false ∧
    Json.obj [] ≠ defaultSentimentJson := by
  refine ⟨rfl, rfl, ?_⟩
  intro h
  unfold defaultSentimentJson at h
  injection h with h2
  exact List.noConfusion h2

/-- C9 amended: analyzeTranscript always produces a record; a sub-call that
fails by transport error or by a non-parseable response is independently
replaced by its documented default, each field depends only on its own
sub-call outcome, but a parseable schema-violating response is passed through
unchanged rather than replaced. -/
theorem analysis_fallback_amended (tid q : String) (mgmt qa themes : ApiOutcome) :
    (analyzeTranscript tid q .transportError qa themes).managementSentiment =
      defaultSentimentJson ∧
    (analyzeTranscript tid q (.content none) qa themes).managementSentiment =
      defaultSentimentJson ∧
    (analyzeTranscript tid q mgmt .transportError themes).qaSentiment =
      defaultSentimentJson ∧
    (analyzeTranscript tid q mgmt (.content none) themes).qaSentiment =
      defaultSentimentJson ∧
    (analyzeTranscript tid q mgmt qa .transportError).strategicFocuses =
      defaultStrategicFocusJson ∧
    (analyzeTranscript tid q mgmt qa (.content none)).strategicFocuses =
      defaultStrategicFocusJson ∧
    (analyzeTranscript tid q mgmt qa themes).managementSentiment =
      analyzeMgmtSentiment mgmt ∧
    (analyzeTranscript tid q mgmt qa themes).qaSentiment = analyzeQASentiment qa ∧
    (analyzeTranscript tid q mgmt qa themes).strategicFocuses =
      extractStrategicFocus themes :=
  ⟨rfl, rfl, rfl, rfl, rfl, rfl, rfl, rfl, rfl⟩

/-- C8: for every input on which analyzeQuarterOverQuarter succeeds, the
report satisfies the length invariants: the quarter list, the management
series and the QA series have equal length, and the change list has
max(0, quarters - 1) entries (truncated subtraction on naturals), on both the
degenerate and the normal path. -/
theorem trendAnalysis_length_invariants (l : List QuarterlyInsights)
    (r : TrendAnalysis) (h : analyzeQuarterOverQuarter l = .ok r) :
    r.quarters.length = r.sentimentTrend.management.length ∧
    r.quarters.length = r.sentimentTrend.qa.length ∧
    r.quarterOverQuarterChanges.length = r.quarters.length - 1 := by
  obtain ⟨s, hs, hr⟩ := (analyzeQOQ_ok_iff l r).mp h
  subst hr
  by_cases hlen : s.length < 2
  · rw [if_pos hlen]
    simp only [getEmptyTrendAnalysis, analyzeSentimentTrends, List.length_map]
    refine ⟨trivial, trivial, ?_⟩
    simp only [List.length_nil]
    omega
  · rw [if_neg hlen]
    simp only [buildTrendAnalysis, analyzeSentimentTrends, List.length_map]
    refine ⟨trivial, trivial, ?_⟩
    cases s with
    | nil => simp at hlen
    | cons x rest =>
      simp only [analyzeQuarterChanges, changesFrom_length, List.length_cons]
      omega

/-- C8 witness: the invariants evaluated on the concrete two-record report. -/
theorem trendAnalysis_length_invariants_witness :
    cxReport.quarters.length = cxReport.sentimentTrend.management.length ∧
    cxReport.quarters.length = cxReport.sentimentTrend.qa.length ∧
    cxReport.quarterOverQuarterChanges.length = cxReport.quarters.length - 1 :=
  trendAnalysis_length_invariants [cxA, cxB] cxReport rfl

/-- C1 counterexample: on the chronologically sorted two-record input cxA
(themes AI) then cxB (themes AI, Gaming), the evolution entry of the earliest
quarter has emergingThemes equal to the full theme set AI and empty
consistentThemes, contradicting the claimed quarter-zero convention of empty
emergingThemes and consistentThemes equal to the theme set. -/
theorem strategicEvolution_quarter0_counterexample :
    (analyzeQuarterOverQuarter [cxA, cxB]).map (fun r =>
      r.strategicEvolution.map (fun e =>
        (e.emergingThemes, e.decliningThemes, e.consistentThemes))) =
      .ok [(["AI"], [], []), (["Gaming"], [], ["AI"])] ∧
    (["AI"] : List String) ≠ [] :=
  ⟨rfl, by decide⟩

/-- C1 amended: on a chronologically sorted input accepted by the analyzer,
every evolution entry with index at least one satisfies the set equations of
the claim (emerging = current minus previous, declining = previous minus
current, consistent = current intersect previous, over theme-name sets); the
entry of the earliest quarter instead has emergingThemes equal to the entire
theme set of that quarter with empty declining and consistent lists when the
input has at least two records, and, through the degenerate path, empty
emerging and declining lists with consistent equal to the full theme list when
the input has exactly one record. -/
theorem strategicEvolution_amended (s : List QuarterlyInsights) (r : TrendAnalysis)
    (hsorted : sortInsightsByQuarter s = .ok s)
    (hrun : analyzeQuarterOverQuarter s = .ok r) :
    r.strategicEvolution.length = s.length ∧
    (∀ i : Nat, 1 ≤ i → i < s.length → ∀ t : String,
      (t ∈ (r.strategicEvolution.getD i dfltEvo).emergingThemes ↔
        t ∈ themeList (s.getD i dfltInsight) ∧
          t ∉ themeList (s.getD (i - 1) dfltInsight)) ∧
      (t ∈ (r.strategicEvolution.getD i dfltEvo).decliningThemes ↔
        t ∈ themeList (s.getD (i - 1) dfltInsight) ∧
          t ∉ themeList (s.getD i dfltInsight)) ∧
      (t ∈ (r.strategicEvolution.getD i dfltEvo).consistentThemes ↔
        t ∈ themeList (s.getD i dfltInsight) ∧
          t ∈ themeList (s.getD (i - 1) dfltInsight))) ∧
    (2 ≤ s.length →
      (∀ t : String, t ∈ (r.strategicEvolution.getD 0 dfltEvo).emergingThemes ↔
        t ∈ themeList (s.getD 0 dfltInsight)) ∧
      (r.strategicEvolution.getD 0 dfltEvo).decliningThemes = [] ∧
      (r.strategicEvolution.getD 0 dfltEvo).consistentThemes = []) ∧
    (s.length = 1 →
      (r.strategicEvolution.getD 0 dfltEvo).emergingThemes = [] ∧
      (r.strategicEvolution.getD 0 dfltEvo).decliningThemes = [] ∧
      (r.strategicEvolution.getD 0 dfltEvo).consistentThemes =
        themeList (s.getD 0 dfltInsight)) := by
  obtain ⟨s', hs', hr⟩ := (analyzeQOQ_ok_iff s r).mp hrun
  rw [hsorted] at hs'
  injection hs' with hss
  subst hss
  subst hr
  by_cases hlen : s.length < 2
  · rw [if_pos hlen]
    simp only [getEmptyTrendAnalysis, List.length_map]
    refine ⟨trivial, ?_, ?_, ?_⟩
    · intro i h1 hi t
      omega
    · intro h2
      omega
    · intro h1
      obtain ⟨x, rfl⟩ := List.length_eq_one.mp h1
      exact ⟨rfl, rfl, rfl⟩
  · rw [if_neg hlen]
    simp only [buildTrendAnalysis, analyzeStrategicEvolution]
    refine ⟨evolutionFrom_length none s, ?_, ?_, ?_⟩
    · intro i h1 hi t
      rw [evolutionFrom_getD s none i hi, if_neg (by omega)]
      exact ⟨evolutionEntry_some_emerging _ _ t, evolutionEntry_some_declining _ _ t,
        evolutionEntry_some_consistent _ _ t⟩
    · intro h2
      rw [evolutionFrom_getD s none 0 (by omega), if_pos rfl]
      exact ⟨fun t => evolutionEntry_none_emerging _ t,
        evolutionEntry_none_declining _, evolutionEntry_none_consistent _⟩
    · intro h1
      omega

/-- C1 witness: the set equations evaluated on the concrete sorted two-record
input, at the transition entry and at the earliest-quarter entry. -/
theorem strategicEvolution_amended_witness :
    ("Gaming" ∈ (cxReport.strategicEvolution.getD 1 dfltEvo).emergingThemes) ∧
    ("AI" ∈ (cxReport.strategicEvolution.getD 0 dfltEvo).emergingThemes) := by
  have h := strategicEvolution_amended [cxA, cxB] cxReport rfl rfl
  constructor
  · exact (h.2.1 1 (by decide) (by decide) "Gaming").1.mpr ⟨by decide, by decide⟩
  · exact ((h.2.2.1 (by decide)).1 "AI").mpr (by decide)
